import Mathlib

/-!
Verification of the `et_stopwatch` module (`src/et_stopwatch.py`, version 1.2.1)
against its natural-language specification.

The module consists of two classes:

* `Statistics` — a running-statistics accumulator with fields
  `max`, `min`, `count`, `sum`, `ssq` (sum of squares) and `ndigits`;
  `__call__` records a sample, `__repr__` renders either a single rounded
  total (when `count <= 1`) or a multi-line block and, as a side effect of
  rendering with `count > 1`, binds `mean` and `stddev` attributes.

* `Stopwatch` — a timer with fields `started`, `stopped`, `stats`,
  `message`, `filename`, `file`, and the dynamically-bound `_time`;
  operations `start`, `stop`, `__enter__`/`__exit__` (context manager),
  `__repr__` and `__call__` (decorator support).

Modelling conventions of this shallow embedding:

* Python floats are modelled by exact rationals `ℚ`; `timeit.default_timer`
  readings are passed to each operation as explicit `ℚ` arguments; an
  operation that reads the timer twice takes two arguments.
* `math.sqrt` is modelled by a parameter `sqrtFn : ℚ → ℚ` supplied to any
  operation that calls it (the exact square root of a rational is in
  general irrational); `math.sqrt` raising `ValueError` on a negative
  argument is modelled explicitly, so rendering returns
  `Statistics × Except PyErr String`: the first component is the mutated
  object (Python mutations performed before the raise survive it), the
  second the produced text or the propagated error.
* Python's dynamic attributes `Statistics.mean` / `Statistics.stddev` /
  `Stopwatch._time` are modelled as `Option` fields that start as `none`.
* `round(x, n)` (round-half-to-even on exact values) is `pyRound`, and the
  f-string rendering of a float value whose decimal expansion terminates is
  `fmtFloat` (minimal decimal form with at least one fractional digit,
  which is CPython's shortest-repr output for such values).
* Output written by `print` and the pickled side-car statistics file used
  by `__exit__` are modelled as explicit values: `__exit__` receives the
  side-car content as `Option Statistics` and returns the updated content
  together with the list of lines written to `self.file`.
-/

namespace EtStopwatch

set_option maxRecDepth 16000

/-- Python error kinds that the embedded code can surface. -/
inductive PyErr where
  | valueError : PyErr
  | zeroDivisionError : PyErr
deriving DecidableEq

deriving instance DecidableEq for Except

/-- Model of `sys.float_info.max` = `(2^53 - 1) * 2^971` = `2^1024 - 2^971`,
written as an explicit integer literal so that it evaluates cheaply. -/
def floatInfoMax : ℚ := Rat.divInt 179769313486231570814527423731704356798070567525844996598917476803157260780028538760589558632766878171540458953514382464234321326889464182768467546703537516986049910576551282076245490090389328944075868508455133942304583236903222948165808559332123348274797826204144723168738177180919299881250404026184124858368 1

/-- Round a rational to the nearest integer, ties to even (the rounding mode
of Python's builtin `round` on exact values). -/
def roundHalfEven (x : ℚ) : ℤ :=
  let f := ⌊x⌋
  let r := x - Rat.divInt f 1
  if r < 1/2 then f
  else if 1/2 < r then f + 1
  else if f % 2 = 0 then f else f + 1

/-- Model of Python's `round(x, n)` for non-negative `n` on exact values. -/
def pyRound (x : ℚ) (n : ℕ) : ℚ :=
  Rat.divInt (roundHalfEven (x * (10:ℚ)^n)) ((10^n : ℕ) : ℤ)

/-- Number of decimal digits needed after the point for a fraction with
denominator `d` (the least `k ≤ 40` with `d ∣ 10^k`; `40` as a safe bound,
all values actually rendered have few digits). -/
def decLen (d : ℕ) : ℕ :=
  (((List.range 40).find? (fun k => 10^k % d == 0)).getD 40)

/-- Drop trailing `'0'` characters from a digit list. -/
def dropTrailingZeros : List Char → List Char
  | [] => []
  | c :: cs =>
    match dropTrailingZeros cs with
    | [] => if c == '0' then [] else [c]
    | rest => c :: rest

/-- Left-pad a string with `'0'` up to length `k`. -/
def padZeros (s : String) (k : ℕ) : String :=
  String.mk (List.replicate (k - s.length) '0') ++ s

/-- Rendering of a float value by a Python f-string, for values with a
terminating decimal expansion: minimal decimal form with at least one digit
after the point (`1.0`, `3.003`, `-0.5`), which is CPython's repr for such
values. -/
def fmtFloat (q : ℚ) : String :=
  let sign := if q < 0 then "-" else ""
  let a : ℚ := if q < 0 then -q else q
  let k := Nat.max 1 (decLen a.den)
  let ip : ℕ := a.num.toNat / a.den
  let fracNum : ℕ := a.num.toNat * 10^k / a.den % 10^k
  let digits :=
    match dropTrailingZeros (padZeros (Nat.repr fracNum) k).data with
    | [] => "0"
    | l => String.mk l
  sign ++ Nat.repr ip ++ "." ++ digits

/-- State of `class Statistics` (`src/et_stopwatch.py` lines 19-50).
`meanAttr` and `stddevAttr` model the dynamic attributes `self.mean` and
`self.stddev` that `__repr__` binds when `count > 1`. -/
structure Statistics where
  max : ℚ
  min : ℚ
  count : ℕ
  sum : ℚ
  ssq : ℚ
  ndigits : ℕ
  meanAttr : Option ℚ
  stddevAttr : Option ℚ
deriving DecidableEq

/-- Embedding of `Statistics.__init__(self, ndigits=3)`. -/
def Statistics.init (ndigits : ℕ) : Statistics :=
  { max := 0
    min := floatInfoMax
    count := 0
    sum := 0
    ssq := 0
    ndigits := ndigits
    meanAttr := none
    stddevAttr := none }

/-- Embedding of `Statistics.__call__(self, t)`: record one sample. -/
def Statistics.record (s : Statistics) (t : ℚ) : Statistics :=
  { s with
    count := s.count + 1
    min := if t < s.min then t else s.min
    max := if t > s.max then t else s.max
    sum := s.sum + t
    ssq := s.ssq + t * t }

/-- Record a whole list of samples in order. -/
def Statistics.recordAll (s : Statistics) (l : List ℚ) : Statistics :=
  l.foldl Statistics.record s

/-- Argument of the square root in `Statistics.__repr__` (line 40):
`(self.ssq + self.mean * (self.count * self.mean - 2 * self.sum)) / self.count`
with `self.mean = self.sum / self.count` substituted in. -/
def Statistics.radicand (s : Statistics) : ℚ :=
  (s.ssq + s.sum / (s.count : ℚ) * ((s.count : ℚ) * (s.sum / (s.count : ℚ)) - 2 * s.sum))
    / (s.count : ℚ)

/-- Embedding of `Statistics.__repr__` (lines 37-50). Returns the mutated
object and the rendered text (or the `ValueError` propagated out of
`math.sqrt` when the radicand is negative; `self.mean` is bound before the
raise, matching the statement order of the source). -/
def Statistics.reprRun (sqrtFn : ℚ → ℚ) (s : Statistics) : Statistics × Except PyErr String :=
  if s.count > 1 then
    let mean := s.sum / (s.count : ℚ)
    let s1 := { s with meanAttr := some mean }
    if s.radicand < 0 then
      (s1, Except.error PyErr.valueError)
    else
      let sd := sqrtFn s.radicand
      let s2 := { s1 with stddevAttr := some sd }
      (s2, Except.ok
        ("\n    total  : " ++ fmtFloat (pyRound s.sum s.ndigits) ++ " s" ++
         "\n    minimum: " ++ fmtFloat (pyRound s.min s.ndigits) ++ " s" ++
         "\n    maximum: " ++ fmtFloat (pyRound s.max s.ndigits) ++ " s" ++
         "\n    mean   : " ++ fmtFloat (pyRound mean s.ndigits) ++ " s" ++
         "\n    stddev : " ++ fmtFloat (pyRound sd s.ndigits) ++ " s" ++
         "\n    count  : " ++ Nat.repr s.count))
  else
    (s, Except.ok (fmtFloat (pyRound s.sum s.ndigits) ++ " s"))

/-- An open output destination held in `self.file`. -/
inductive Sink where
  | stdout : Sink
  | handle : Sink
deriving DecidableEq

/-- The `file` constructor argument of `Stopwatch`: the standard output
stream (the default), some other file-like object, or a path string. -/
inductive FileArg where
  | stdout : FileArg
  | handle : FileArg
  | path : String → FileArg
deriving DecidableEq

/-- State of `class Stopwatch` (`src/et_stopwatch.py` lines 62-182).
`timeAttr` models the dynamic attribute `self._time`; `file = none` models
`self.file = None`. -/
structure Stopwatch where
  started : ℚ
  stopped : ℚ
  stats : Statistics
  message : String
  filename : Option String
  file : Option Sink
  timeAttr : Option ℚ
deriving DecidableEq

/-- Embedding of `Stopwatch.start(self, message=None)` (lines 121-129);
`now` is the value read from `timer()`. A `some ""` message is falsy in
Python and therefore does not overwrite. -/
def Stopwatch.start (w : Stopwatch) (now : ℚ) (message : Option String) : Stopwatch :=
  { w with
    started := now
    stopped := now
    message := match message with
      | some m => if m = "" then w.message else m
      | none => w.message }

/-- Embedding of `Stopwatch.__init__(self, message='Stopwatch', ndigits=6, file=stdout)`
(lines 71-90); `now` is the timer reading consumed by the final `self.start()`. -/
def Stopwatch.init (message : String) (ndigits : ℕ) (file : FileArg) (now : ℚ) : Stopwatch :=
  Stopwatch.start
    { started := -1
      stopped := -1
      stats := Statistics.init ndigits
      message := message
      filename := match file with
        | FileArg.path s => some s
        | _ => none
      file := match file with
        | FileArg.stdout => some Sink.stdout
        | FileArg.handle => some Sink.handle
        | FileArg.path _ => none
      timeAttr := none }
    now none

/-- Embedding of `Stopwatch.stop(self, stats=True)` (lines 133-155); `t1` is
the timer reading taken by `stop` itself and `t2` the one consumed by the
`self.start()` it performs before returning. Note that the source body never
consults the `statsFlag` parameter: `self.stats(t)` is executed
unconditionally. -/
def Stopwatch.stop (w : Stopwatch) (statsFlag : Bool) (t1 t2 : ℚ) : ℚ × Stopwatch :=
  let _ := statsFlag
  let w1 := { w with stopped := t1 }
  let t := w1.stopped - w1.started
  let w2 := { w1 with stats := w1.stats.record t }
  let rt := pyRound t w2.stats.ndigits
  let w3 := { w2 with timeAttr := some rt }
  (rt, w3.start t2 none)

/-- Embedding of `Stopwatch.__enter__` (lines 93-95). -/
def Stopwatch.enter (w : Stopwatch) (now : ℚ) : Stopwatch :=
  w.start now none

/-- Embedding of `Stopwatch.__exit__` (lines 98-118). `t1`, `t2` are the
timer readings consumed by the conditional `self.stop()`; `persisted` is the
content of the pickled `<filename>.stats` side-car file (`none` when the
file does not exist). Returns the new object, the new side-car content, and
the lines printed to `self.file` (or the error a failing render raises).
The source ignores the exception triple, so a failure propagating through
the block does not change this behaviour. -/
def Stopwatch.exit (sqrtFn : ℚ → ℚ) (w : Stopwatch) (t1 t2 : ℚ)
    (persisted : Option Statistics) :
    Stopwatch × Option Statistics × Except PyErr (List String) :=
  let w1 := if w.stats.count = 0 then (w.stop true t1 t2).2 else w
  let w2 := if w1.file.isNone then { w1 with file := some Sink.handle } else w1
  match w2.filename with
  | none => (w2, persisted, Except.ok [])
  | some _ =>
    let st0 := match persisted with
      | some st => st
      | none => Statistics.init w2.stats.ndigits
    let st1 := st0.record w2.stats.sum
    if st1.count > 1 then
      match (st1.reprRun sqrtFn).2 with
      | Except.ok str => (w2, some st1, Except.ok ["Overview: " ++ str])
      | Except.error e => (w2, some st1, Except.error e)
    else (w2, some st1, Except.ok [])

/-- Embedding of `Stopwatch.__repr__` (lines 167-172):
`f"{self.message} : " + str(self.stats)`, with the mutation and possible
failure of `str(self.stats)` made explicit. -/
def Stopwatch.reprRun (sqrtFn : ℚ → ℚ) (w : Stopwatch) : Stopwatch × Except PyErr String :=
  let p := w.stats.reprRun sqrtFn
  ({ w with stats := p.1 },
    match p.2 with
    | Except.ok s => Except.ok ((w.message ++ " : ") ++ s)
    | Except.error e => Except.error e)

/-- Modelled from the spec: no `lap()` / `timelapse()` method exists in
`src/et_stopwatch.py` (the spec consolidates several historical variants of
the class). Per the spec's words, `lap()` returns the elapsed time since the
previous `lap()`/`start()` call, advancing its own reference point
(`stoppedAt`) each call, without feeding the accumulator and without
affecting `startedAt`. -/
def Stopwatch.lap (w : Stopwatch) (now : ℚ) : ℚ × Stopwatch :=
  (now - w.stopped, { w with stopped := now })

/-- A Python callable together with its `__name__` metadata. -/
structure PyFunc (α β : Type) where
  funcName : String
  call : α → β

/-- Mutable context threaded through decorated calls: the `Stopwatch`
object captured by the decorator and the side-car statistics file content. -/
structure CallCtx where
  watch : Stopwatch
  persisted : Option Statistics
deriving DecidableEq

/-- A wrapped callable produced by decoration: `funcName` is the metadata
copied by `functools.wraps`; `call` takes the three timer readings consumed
by one invocation (`__enter__`, and the two used by `__exit__`). -/
structure TimedFunc (α β : Type) where
  funcName : String
  call : ℚ × ℚ × ℚ → CallCtx → α → β × CallCtx

/-- Execution of a body inside the scoped-acquisition adapter
(`with self: ...` on the stopwatch held in the context): scope entry calls
`__enter__`, then the body runs, then `__exit__` runs. -/
def scopedRun (sqrtFn : ℚ → ℚ) (t0 t1 t2 : ℚ) (body : Unit → β) (c : CallCtx) :
    β × CallCtx :=
  let w1 := c.watch.enter t0
  let r := body ()
  let e := w1.exit sqrtFn t1 t2 c.persisted
  (r, { watch := e.1, persisted := e.2.1 })

/-- Embedding of `Stopwatch.__call__(self, func)` (lines 175-182): the
returned `wrapper_stopwatch` runs `func` inside `with self:` and carries
`func`'s metadata via `functools.wraps`. -/
def Stopwatch.decorate (sqrtFn : ℚ → ℚ) (f : PyFunc α β) : TimedFunc α β :=
  { funcName := f.funcName
    call := fun ts c x =>
      let w1 := c.watch.enter ts.1
      let r := f.call x
      let e := w1.exit sqrtFn ts.2.1 ts.2.2 c.persisted
      (r, { watch := e.1, persisted := e.2.1 }) }

/-- Repeated invocations of a decorated callable, one triple of timer
readings per call. -/
def iterateCalls (sqrtFn : ℚ → ℚ) (f : PyFunc α β) (x : α)
    (ts : List (ℚ × ℚ × ℚ)) (c : CallCtx) : CallCtx :=
  ts.foldl (fun c t => ((Stopwatch.decorate sqrtFn f).call t c x).2) c

/-- Stopwatch states reachable by construction followed by any sequence of
`start()` / `stop()` calls with monotonically non-decreasing timer
readings. -/
inductive Reach : Stopwatch → Prop where
  | init : ∀ (msg : String) (nd : ℕ) (fa : FileArg) (now : ℚ),
      Reach (Stopwatch.init msg nd fa now)
  | next_start : ∀ (w : Stopwatch) (now : ℚ) (m : Option String),
      Reach w → w.stopped ≤ now → Reach (w.start now m)
  | next_stop : ∀ (w : Stopwatch) (flag : Bool) (t1 t2 : ℚ),
      Reach w → w.stopped ≤ t1 → t1 ≤ t2 → Reach ((w.stop flag t1 t2).2)

/-! Concrete instances used to evaluate the embedding on explicit inputs. -/

/-- An accumulator holding exactly the two samples `1` and `2`. -/
def twoSampleStats : Statistics := (Statistics.init 3).recordAll [1, 2]

/-- A stopwatch constructed with all the default arguments
(`Stopwatch()`), at timer reading `0`. -/
def freshWatch : Stopwatch := Stopwatch.init "Stopwatch" 6 FileArg.stdout 0

/-- The default stopwatch after one `stop()` whose two timer readings are
both `1`: one recorded sample of duration `1`. -/
def oneStopWatch : Stopwatch := (freshWatch.stop true 1 1).2

/-- The default stopwatch after `stop()` at times `1` and `3`: recorded
samples of durations `1` and `2`. -/
def twoStopWatch : Stopwatch := (oneStopWatch.stop true 3 3).2

/-- A trivial Python callable named `mysleep`. -/
def unitFunc : PyFunc Unit Unit := { funcName := "mysleep", call := fun u => u }

/-- A decorator context around the fresh default stopwatch, with no
side-car statistics file. -/
def ctx0 : CallCtx := { watch := freshWatch, persisted := none }

/-! Basic unfolding lemmas about the accumulator. -/

theorem Statistics.record_count (s : Statistics) (t : ℚ) :
    (s.record t).count = s.count + 1 := rfl

theorem Statistics.record_sum (s : Statistics) (t : ℚ) :
    (s.record t).sum = s.sum + t := rfl

theorem Statistics.record_ssq (s : Statistics) (t : ℚ) :
    (s.record t).ssq = s.ssq + t * t := rfl

theorem Statistics.record_ndigits (s : Statistics) (t : ℚ) :
    (s.record t).ndigits = s.ndigits := rfl

theorem Statistics.record_min_eq (s : Statistics) (t : ℚ) :
    (s.record t).min = Min.min s.min t := by
  by_cases h : t < s.min
  · simp [Statistics.record, h, min_eq_right h.le]
  · simp [Statistics.record, h, min_eq_left (le_of_not_lt h)]

theorem Statistics.record_max_eq (s : Statistics) (t : ℚ) :
    (s.record t).max = Max.max s.max t := by
  by_cases h : t > s.max
  · simp [Statistics.record, h, max_eq_right h.le]
  · simp [Statistics.record, h, max_eq_left (le_of_not_lt h)]

theorem Statistics.recordAll_nil (s : Statistics) : s.recordAll [] = s := rfl

theorem Statistics.recordAll_cons (s : Statistics) (a : ℚ) (l : List ℚ) :
    s.recordAll (a :: l) = (s.record a).recordAll l := rfl

theorem Statistics.recordAll_count (l : List ℚ) :
    ∀ (s : Statistics), (s.recordAll l).count = s.count + l.length := by
  induction l with
  | nil => intro s; simp [Statistics.recordAll_nil]
  | cons a t ih =>
    intro s
    rw [Statistics.recordAll_cons, ih]
    simp [Statistics.record_count]
    omega

theorem Statistics.recordAll_sum (l : List ℚ) :
    ∀ (s : Statistics), (s.recordAll l).sum = s.sum + l.sum := by
  induction l with
  | nil => intro s; simp [Statistics.recordAll_nil]
  | cons a t ih =>
    intro s
    rw [Statistics.recordAll_cons, ih]
    simp [Statistics.record_sum]
    ring

theorem Statistics.recordAll_ssq (l : List ℚ) :
    ∀ (s : Statistics), (s.recordAll l).ssq = s.ssq + (l.map (fun x => x * x)).sum := by
  induction l with
  | nil => intro s; simp [Statistics.recordAll_nil]
  | cons a t ih =>
    intro s
    rw [Statistics.recordAll_cons, ih]
    simp [Statistics.record_ssq]
    ring

theorem Statistics.recordAll_ndigits (l : List ℚ) :
    ∀ (s : Statistics), (s.recordAll l).ndigits = s.ndigits := by
  induction l with
  | nil => intro s; rfl
  | cons a t ih => intro s; rw [Statistics.recordAll_cons, ih]; rfl

theorem Statistics.recordAll_min (l : List ℚ) :
    ∀ (s : Statistics), (s.recordAll l).min = l.foldl Min.min s.min := by
  induction l with
  | nil => intro s; rfl
  | cons a t ih =>
    intro s
    rw [Statistics.recordAll_cons, ih, List.foldl_cons, Statistics.record_min_eq]

theorem Statistics.recordAll_max (l : List ℚ) :
    ∀ (s : Statistics), (s.recordAll l).max = l.foldl Max.max s.max := by
  induction l with
  | nil => intro s; rfl
  | cons a t ih =>
    intro s
    rw [Statistics.recordAll_cons, ih, List.foldl_cons, Statistics.record_max_eq]

/-! Characterisation of a left fold by `min` / `max` over the rationals. -/

theorem foldl_min_le_init (l : List ℚ) : ∀ (m : ℚ), l.foldl Min.min m ≤ m := by
  induction l with
  | nil => intro m; simp
  | cons a t ih =>
    intro m
    calc (a :: t).foldl Min.min m = t.foldl Min.min (Min.min m a) := by rw [List.foldl_cons]
    _ ≤ Min.min m a := ih _
    _ ≤ m := min_le_left _ _

theorem foldl_min_le_mem (l : List ℚ) :
    ∀ (m x : ℚ), x ∈ l → l.foldl Min.min m ≤ x := by
  induction l with
  | nil => intro m x hx; cases hx
  | cons a t ih =>
    intro m x hx
    rw [List.foldl_cons]
    rcases List.mem_cons.mp hx with rfl | hx
    · exact le_trans (foldl_min_le_init t _) (min_le_right _ _)
    · exact ih _ _ hx

theorem foldl_min_mem_or (l : List ℚ) :
    ∀ (m : ℚ), l.foldl Min.min m ∈ l ∨ l.foldl Min.min m = m := by
  induction l with
  | nil => intro m; right; rfl
  | cons a t ih =>
    intro m
    rw [List.foldl_cons]
    rcases ih (Min.min m a) with h | h
    · left; exact List.mem_cons_of_mem _ h
    · rcases min_cases m a with ⟨he, _⟩ | ⟨he, _⟩
      · right; rw [h, he]
      · left; rw [h, he]; exact List.mem_cons_self _ _

theorem foldl_max_ge_init (l : List ℚ) : ∀ (m : ℚ), m ≤ l.foldl Max.max m := by
  induction l with
  | nil => intro m; simp
  | cons a t ih =>
    intro m
    calc m ≤ Max.max m a := le_max_left _ _
    _ ≤ t.foldl Max.max (Max.max m a) := ih _
    _ = (a :: t).foldl Max.max m := by rw [List.foldl_cons]

theorem foldl_max_ge_mem (l : List ℚ) :
    ∀ (m x : ℚ), x ∈ l → x ≤ l.foldl Max.max m := by
  induction l with
  | nil => intro m x hx; cases hx
  | cons a t ih =>
    intro m x hx
    rw [List.foldl_cons]
    rcases List.mem_cons.mp hx with rfl | hx
    · exact le_trans (le_max_right m x) (foldl_max_ge_init t _)
    · exact ih _ _ hx

theorem foldl_max_mem_or (l : List ℚ) :
    ∀ (m : ℚ), l.foldl Max.max m ∈ l ∨ l.foldl Max.max m = m := by
  induction l with
  | nil => intro m; right; rfl
  | cons a t ih =>
    intro m
    rw [List.foldl_cons]
    rcases ih (Max.max m a) with h | h
    · left; exact List.mem_cons_of_mem _ h
    · rcases max_cases m a with ⟨he, _⟩ | ⟨he, _⟩
      · right; rw [h, he]
      · left; rw [h, he]; exact List.mem_cons_self _ _

/-! The Cauchy–Schwarz style bound that keeps the variance radicand
non-negative for any really recorded sample list. -/

theorem sq_sum_le_len_mul_ssq (l : List ℚ) :
    l.sum ^ 2 ≤ (l.length : ℚ) * (l.map (fun x => x * x)).sum := by
  induction l with
  | nil => simp
  | cons a t ih =>
    rcases eq_or_ne t [] with rfl | hne
    · simp; nlinarith [sq_nonneg a]
    · have hlen : (1 : ℚ) ≤ (t.length : ℚ) := by
        have h1 : 1 ≤ t.length := List.length_pos.mpr hne
        exact_mod_cast h1
      simp only [List.sum_cons, List.map_cons, List.length_cons]
      push_cast
      nlinarith [ih, sq_nonneg ((t.length : ℚ) * a - t.sum), hlen,
        sq_nonneg (a - t.sum), sq_nonneg (a + t.sum)]

theorem radicand_nonneg (nd : ℕ) (l : List ℚ) :
    0 ≤ ((Statistics.init nd).recordAll l).radicand := by
  have hc : ((Statistics.init nd).recordAll l).count = l.length := by
    rw [Statistics.recordAll_count]; simp [Statistics.init]
  have hs : ((Statistics.init nd).recordAll l).sum = l.sum := by
    rw [Statistics.recordAll_sum]; simp [Statistics.init]
  have hq : ((Statistics.init nd).recordAll l).ssq = (l.map (fun x => x * x)).sum := by
    rw [Statistics.recordAll_ssq]; simp [Statistics.init]
  unfold Statistics.radicand
  rw [hc, hs, hq]
  rcases Nat.eq_zero_or_pos l.length with h0 | hp
  · rw [h0]; simp
  · have hn : ((l.length : ℚ)) ≠ 0 := by
      exact_mod_cast Nat.pos_iff_ne_zero.mp hp
    have key := sq_sum_le_len_mul_ssq l
    have hrw : ((l.map (fun x => x * x)).sum
          + l.sum / (l.length : ℚ) * ((l.length : ℚ) * (l.sum / (l.length : ℚ)) - 2 * l.sum))
            / (l.length : ℚ)
        = ((l.length : ℚ) * (l.map (fun x => x * x)).sum - l.sum ^ 2) / (l.length : ℚ) ^ 2 := by
      field_simp
      ring
    rw [hrw]
    apply div_nonneg
    · linarith [key]
    · positivity

/-! Basic unfolding lemmas about the stopwatch operations. -/

theorem Stopwatch.start_stats (w : Stopwatch) (now : ℚ) (m : Option String) :
    (w.start now m).stats = w.stats := rfl

theorem Stopwatch.start_filename (w : Stopwatch) (now : ℚ) (m : Option String) :
    (w.start now m).filename = w.filename := rfl

theorem Stopwatch.start_file (w : Stopwatch) (now : ℚ) (m : Option String) :
    (w.start now m).file = w.file := rfl

theorem Stopwatch.enter_stats (w : Stopwatch) (now : ℚ) :
    (w.enter now).stats = w.stats := rfl

theorem Stopwatch.stop_snd_stats (w : Stopwatch) (flag : Bool) (t1 t2 : ℚ) :
    ((w.stop flag t1 t2).2).stats = w.stats.record (t1 - w.started) := rfl

theorem Stopwatch.stop_snd_filename (w : Stopwatch) (flag : Bool) (t1 t2 : ℚ) :
    ((w.stop flag t1 t2).2).filename = w.filename := rfl

theorem Stopwatch.stop_snd_file (w : Stopwatch) (flag : Bool) (t1 t2 : ℚ) :
    ((w.stop flag t1 t2).2).file = w.file := rfl

theorem Stopwatch.stop_flag_irrelevant (w : Stopwatch) (a b : Bool) (t1 t2 : ℚ) :
    w.stop a t1 t2 = w.stop b t1 t2 := rfl

/-- Closed form of the stopwatch object returned by `__exit__`: a possible
conditional `stop()` followed by a possible opening of `self.file`; the
statistics-pickling branch never touches the object itself. -/
theorem Stopwatch.exit_fst (f : ℚ → ℚ) (w : Stopwatch) (t1 t2 : ℚ) (p : Option Statistics) :
    (Stopwatch.exit f w t1 t2 p).1 =
      (if (if w.stats.count = 0 then (w.stop true t1 t2).2 else w).file.isNone
       then { (if w.stats.count = 0 then (w.stop true t1 t2).2 else w) with
                file := some Sink.handle }
       else (if w.stats.count = 0 then (w.stop true t1 t2).2 else w)) := by
  unfold Stopwatch.exit
  dsimp only
  split
  · rfl
  · repeat' split
    all_goals rfl

theorem Stopwatch.exit_fst_stats (f : ℚ → ℚ) (w : Stopwatch) (t1 t2 : ℚ)
    (p : Option Statistics) :
    ((Stopwatch.exit f w t1 t2 p).1).stats =
      if w.stats.count = 0 then w.stats.record (t1 - w.started) else w.stats := by
  rw [Stopwatch.exit_fst]
  by_cases hc : w.stats.count = 0
  · simp only [hc, if_true]
    split <;> exact Stopwatch.stop_snd_stats w true t1 t2
  · simp only [hc, if_false]
    split <;> rfl

theorem Stopwatch.exit_snd_of_filename_none (f : ℚ → ℚ) (w : Stopwatch) (t1 t2 : ℚ)
    (p : Option Statistics) (hfn : w.filename = none) :
    (Stopwatch.exit f w t1 t2 p).2 = (p, Except.ok []) := by
  unfold Stopwatch.exit
  dsimp only
  split
  · rfl
  · rename_i s hs
    exfalso
    have h2 : (if (if w.stats.count = 0 then (w.stop true t1 t2).2 else w).file.isNone
       then { (if w.stats.count = 0 then (w.stop true t1 t2).2 else w) with
                file := some Sink.handle }
       else (if w.stats.count = 0 then (w.stop true t1 t2).2 else w)).filename
        = w.filename := by
      by_cases hc : w.stats.count = 0 <;> simp only [hc, if_true, if_false] <;>
        split <;> rfl
    rw [h2, hfn] at hs
    cases hs

/-! Decorator-level helper lemmas. -/

/-- Effect of one decorated call on the accumulator held in the context:
`__exit__` records the enter-to-stop delta when and only when no sample has
been recorded yet. -/
theorem decorate_step_stats (sqrtFn : ℚ → ℚ) (f : PyFunc α β) (x : α)
    (t : ℚ × ℚ × ℚ) (c : CallCtx) :
    ((Stopwatch.decorate sqrtFn f).call t c x).2.watch.stats =
      if c.watch.stats.count = 0
      then c.watch.stats.record (t.2.1 - t.1)
      else c.watch.stats := by
  show ((c.watch.enter t.1).exit sqrtFn t.2.1 t.2.2 c.persisted).1.stats =
    if c.watch.stats.count = 0 then c.watch.stats.record (t.2.1 - t.1) else c.watch.stats
  rw [Stopwatch.exit_fst_stats]
  rfl

/-- Once a sample is present, further decorated calls leave the sample
count untouched. -/
theorem iterate_count_stable (sqrtFn : ℚ → ℚ) (f : PyFunc α β) (x : α) :
    ∀ (ts : List (ℚ × ℚ × ℚ)) (c : CallCtx), c.watch.stats.count ≠ 0 →
      (iterateCalls sqrtFn f x ts c).watch.stats.count = c.watch.stats.count := by
  intro ts
  induction ts with
  | nil => intro c _; rfl
  | cons t rest ih =>
    intro c h
    have hstep : ((Stopwatch.decorate sqrtFn f).call t c x).2.watch.stats
        = c.watch.stats := by
      rw [decorate_step_stats, if_neg h]
    have hrw : iterateCalls sqrtFn f x (t :: rest) c
        = iterateCalls sqrtFn f x rest ((Stopwatch.decorate sqrtFn f).call t c x).2 := rfl
    rw [hrw, ih _ (by rw [hstep]; exact h), hstep]

/-- Starting from a context with no recorded sample, any positive number of
decorated calls leaves exactly one recorded sample. -/
theorem iterate_count_one (sqrtFn : ℚ → ℚ) (f : PyFunc α β) (x : α)
    (ts : List (ℚ × ℚ × ℚ)) (c : CallCtx) (hts : ts ≠ [])
    (hc : c.watch.stats.count = 0) :
    (iterateCalls sqrtFn f x ts c).watch.stats.count = 1 := by
  cases ts with
  | nil => cases hts rfl
  | cons t rest =>
    have hstep : ((Stopwatch.decorate sqrtFn f).call t c x).2.watch.stats.count = 1 := by
      rw [decorate_step_stats, if_pos hc, Statistics.record_count, hc]
    have hrw : iterateCalls sqrtFn f x (t :: rest) c
        = iterateCalls sqrtFn f x rest ((Stopwatch.decorate sqrtFn f).call t c x).2 := rfl
    rw [hrw, iterate_count_stable sqrtFn f x rest _ (by rw [hstep]; exact one_ne_zero),
      hstep]

/-! Theorems settling the individual claims. -/

/-- C1 (code bug). The claim says `stop(recordStatistics=false)` computes the
delta, stores the rounded `lastElapsed`, restarts the watch and returns the
rounded delta but does NOT record the delta into the accumulator. The body
of `Stopwatch.stop` (lines 150-155) never consults its `stats` parameter and
executes `self.stats(t)` unconditionally, contradicting its own docstring
"if False no statistics are acummulated": a call with the flag `false` is
identical to a call with `true` and increments the accumulator count; the
remaining claimed effects (rounded `_time` stored, restart, rounded return
value, message kept) do hold. -/
theorem claim1_stop_records_despite_false_flag (w : Stopwatch) (flag : Bool) (t1 t2 : ℚ) :
    (w.stop false t1 t2 = w.stop true t1 t2) ∧
    ((w.stop flag t1 t2).2.stats.count = w.stats.count + 1) ∧
    ((w.stop flag t1 t2).2.stats.sum = w.stats.sum + (t1 - w.started)) ∧
    ((w.stop flag t1 t2).1 = pyRound (t1 - w.started) w.stats.ndigits) ∧
    ((w.stop flag t1 t2).2.timeAttr = some (pyRound (t1 - w.started) w.stats.ndigits)) ∧
    ((w.stop flag t1 t2).2.started = t2 ∧ (w.stop flag t1 t2).2.stopped = t2) ∧
    ((w.stop flag t1 t2).2.message = w.message) :=
  ⟨rfl, rfl, rfl, rfl, rfl, ⟨rfl, rfl⟩, rfl⟩

/-- C2, counterexample. The claim asserts that for every accumulator state
with `count >= 1` a standard deviation (clamped-radicand formula, `0` for
`count == 1`) is reported when rendering. On an accumulator holding exactly
one sample the source takes the single-value branch of `__repr__`: no
standard deviation is computed, bound, or reported at all. -/
theorem claim2_counterexample_count_one_reports_no_stddev :
    (((Statistics.init 3).record 2).count = 1) ∧
    ((((Statistics.init 3).record 2).reprRun id).1.stddevAttr = none) ∧
    ((((Statistics.init 3).record 2).reprRun id).2 = Except.ok "2.0 s") := by
  with_unfolding_all decide

/-- C2, amended. For every accumulator state with `count > 1` the standard
deviation bound and rendered by `__repr__` is `sqrt` of the radicand
`(ssq + mean*(count*mean - 2*sum))/count` — equal to the claim's
`(ssq - mean*(2*sum - count*mean))/count` — WITHOUT any clamping at zero
(a negative radicand would propagate `math.sqrt`'s `ValueError`); for every
accumulator state actually built by recording samples into a fresh
accumulator the radicand is non-negative, so the clamp `max(0, ·)` would be
the identity there; and for `count == 1` no standard deviation is reported
(see the counterexample). -/
theorem claim2_amended_stddev_formula (sqrtFn : ℚ → ℚ) (s : Statistics)
    (h : 1 < s.count) :
    ((s.reprRun sqrtFn).1.stddevAttr =
      if s.radicand < 0 then s.stddevAttr else some (sqrtFn s.radicand)) ∧
    ((s.reprRun sqrtFn).2 = Except.error PyErr.valueError ↔ s.radicand < 0) ∧
    (s.radicand =
      (s.ssq - s.sum / (s.count : ℚ) * (2 * s.sum - (s.count : ℚ) * (s.sum / (s.count : ℚ))))
        / (s.count : ℚ)) ∧
    (∀ (nd : ℕ) (l : List ℚ), 0 ≤ ((Statistics.init nd).recordAll l).radicand) ∧
    (∀ (nd : ℕ) (l : List ℚ),
      Max.max 0 (((Statistics.init nd).recordAll l).radicand)
        = ((Statistics.init nd).recordAll l).radicand) := by
  refine ⟨?_, ?_, ?_, radicand_nonneg, fun nd l => max_eq_right (radicand_nonneg nd l)⟩
  · unfold Statistics.reprRun
    dsimp only
    rw [if_pos h]
    split
    · rfl
    · rfl
  · unfold Statistics.reprRun
    dsimp only
    rw [if_pos h]
    constructor
    · intro he
      by_contra hr
      rw [if_neg hr] at he
      cases he
    · intro hr
      rw [if_pos hr]
  · unfold Statistics.radicand
    ring

/-- C2, witness for the amended theorem at a concrete two-sample state. -/
theorem claim2_witness :
    (twoSampleStats.reprRun id).1.stddevAttr =
      if twoSampleStats.radicand < 0 then twoSampleStats.stddevAttr
      else some (id twoSampleStats.radicand) :=
  (claim2_amended_stddev_formula id twoSampleStats (by with_unfolding_all decide)).1

/-- C3 (code bug). The claim says that on scope exit `stop()` runs if and
only if the accumulator count is still zero — which the source does — and
that the rendered summary is then emitted to the configured output sink,
standard output by default. The source of `__exit__` (lines 98-118) never
prints the stopwatch: with the default sink (`filename` is `None`) it emits
nothing at all, contradicting the repository's own tests
(`test_context_manager_1/2` read the summary from captured stdout) and the
`__main__` examples. This theorem evaluates the code: for any stopwatch
whose `filename` is `None`, scope exit performs the conditional `stop()`
exactly as claimed but the list of emitted lines is empty. -/
theorem claim3_exit_stops_iff_count_zero_but_emits_nothing (sqrtFn : ℚ → ℚ)
    (w : Stopwatch) (t1 t2 : ℚ) (p : Option Statistics) (hfn : w.filename = none) :
    ((w.exit sqrtFn t1 t2 p).2.2 = Except.ok []) ∧
    ((w.exit sqrtFn t1 t2 p).2.1 = p) ∧
    (w.stats.count = 0 →
      ((w.exit sqrtFn t1 t2 p).1).stats = ((w.stop true t1 t2).2).stats) ∧
    (w.stats.count ≠ 0 → ((w.exit sqrtFn t1 t2 p).1).stats = w.stats) := by
  have h2 := Stopwatch.exit_snd_of_filename_none sqrtFn w t1 t2 p hfn
  have h1 := Stopwatch.exit_fst_stats sqrtFn w t1 t2 p
  refine ⟨?_, ?_, ?_, ?_⟩
  · rw [h2]
  · rw [h2]
  · intro hc
    rw [h1, if_pos hc, Stopwatch.stop_snd_stats]
  · intro hc
    rw [h1, if_neg hc]

/-- C3, witness: entering a default-constructed stopwatch and leaving the
scope calls `stop()` (the count was zero) yet emits nothing. -/
theorem claim3_witness :
    (((freshWatch.enter 0).exit id 1 1 none).2.2 = Except.ok []) ∧
    (((freshWatch.enter 0).exit id 1 1 none).1).stats =
      (((freshWatch.enter 0).stop true 1 1).2).stats :=
  ⟨(claim3_exit_stops_iff_count_zero_but_emits_nothing id (freshWatch.enter 0) 1 1 none rfl).1,
   (claim3_exit_stops_iff_count_zero_but_emits_nothing id (freshWatch.enter 0) 1 1 none rfl).2.2.1 rfl⟩

/-- C4 (confirmed). Feeding `N >= 1` samples `d1..dN` — durations, hence
non-negative and representable, i.e. at most `sys.float_info.max` — to a
freshly constructed accumulator gives `count = N`, `sum = Σ di` (exactly, in
this exact-arithmetic model), `min = min(di)` and `max = max(di)` (stated as:
the stored extremum is a list element and bounds every element); `min`
starts at `sys.float_info.max` and `max` at `0`, and the first recorded
sample sets both extrema to its own value. -/
theorem claim4_accumulator_totals_and_extrema (nd : ℕ) (l : List ℚ)
    (hne : l ≠ []) (h0 : ∀ x ∈ l, 0 ≤ x) (hM : ∀ x ∈ l, x ≤ floatInfoMax) :
    (((Statistics.init nd).recordAll l).count = l.length) ∧
    (((Statistics.init nd).recordAll l).sum = l.sum) ∧
    (((Statistics.init nd).recordAll l).min ∈ l ∧
      ∀ x ∈ l, ((Statistics.init nd).recordAll l).min ≤ x) ∧
    (((Statistics.init nd).recordAll l).max ∈ l ∧
      ∀ x ∈ l, x ≤ ((Statistics.init nd).recordAll l).max) ∧
    ((Statistics.init nd).min = floatInfoMax ∧ (Statistics.init nd).max = 0) ∧
    (∀ d : ℚ, 0 ≤ d → d ≤ floatInfoMax →
      ((Statistics.init nd).record d).min = d ∧ ((Statistics.init nd).record d).max = d) := by
  obtain ⟨y, hy⟩ := List.exists_mem_of_ne_nil l hne
  have hmin : ((Statistics.init nd).recordAll l).min = l.foldl Min.min floatInfoMax := by
    rw [Statistics.recordAll_min]; rfl
  have hmax : ((Statistics.init nd).recordAll l).max = l.foldl Max.max 0 := by
    rw [Statistics.recordAll_max]; rfl
  refine ⟨?_, ?_, ⟨?_, ?_⟩, ⟨?_, ?_⟩, ⟨rfl, rfl⟩, ?_⟩
  · rw [Statistics.recordAll_count]; simp [Statistics.init]
  · rw [Statistics.recordAll_sum]; simp [Statistics.init]
  · rw [hmin]
    rcases foldl_min_mem_or l floatInfoMax with h | h
    · exact h
    · have h3 : y ≤ l.foldl Min.min floatInfoMax := by
        rw [h]; exact hM y hy
      have h4 : l.foldl Min.min floatInfoMax = y :=
        le_antisymm (foldl_min_le_mem l _ y hy) h3
      rw [h4]; exact hy
  · intro x hx; rw [hmin]; exact foldl_min_le_mem l floatInfoMax x hx
  · rw [hmax]
    rcases foldl_max_mem_or l 0 with h | h
    · exact h
    · have h3 : y ≤ 0 := by
        rw [← h]; exact foldl_max_ge_mem l 0 y hy
      have h4 : l.foldl Max.max 0 = y := by
        rw [h]; exact (le_antisymm h3 (h0 y hy)).symm
      rw [h4]; exact hy
  · intro x hx; rw [hmax]; exact foldl_max_ge_mem l 0 x hx
  · intro d hd0 hdM
    constructor
    · rw [Statistics.record_min_eq]; exact min_eq_right hdM
    · rw [Statistics.record_max_eq]; exact max_eq_right hd0

/-- C4, witness at the concrete sample list `[2, 1/2]`. -/
theorem claim4_witness :
    (((Statistics.init 3).recordAll [2, 1/2]).count = ([2, 1/2] : List ℚ).length) ∧
    (((Statistics.init 3).recordAll [2, 1/2]).sum = ([2, 1/2] : List ℚ).sum) ∧
    (((Statistics.init 3).recordAll [2, 1/2]).min ∈ ([2, 1/2] : List ℚ) ∧
      ∀ x ∈ ([2, 1/2] : List ℚ), ((Statistics.init 3).recordAll [2, 1/2]).min ≤ x) :=
  ⟨(claim4_accumulator_totals_and_extrema 3 [2, 1/2] (by simp)
      (by with_unfolding_all decide) (by with_unfolding_all decide)).1,
   (claim4_accumulator_totals_and_extrema 3 [2, 1/2] (by simp)
      (by with_unfolding_all decide) (by with_unfolding_all decide)).2.1,
   (claim4_accumulator_totals_and_extrema 3 [2, 1/2] (by simp)
      (by with_unfolding_all decide) (by with_unfolding_all decide)).2.2.1⟩

/-- C5 (confirmed against the spec-modelled `lap`, which is absent from
`src/et_stopwatch.py`): after `start()` at time `s`, a `lap()` at time `t1`
returns `t1 - s`, a second `lap()` at `t2` returns `t2 - t1`, and neither
touches the accumulator (`stats` unchanged, so in particular `count`) nor
`startedAt`. -/
theorem claim5_lap_measures_since_previous (w : Stopwatch) (s t1 t2 : ℚ)
    (m : Option String) :
    (((w.start s m).lap t1).1 = t1 - s) ∧
    ((((w.start s m).lap t1).2.lap t2).1 = t2 - t1) ∧
    (((w.start s m).lap t1).2.stats = w.stats) ∧
    ((((w.start s m).lap t1).2.lap t2).2.stats = w.stats) ∧
    (((w.start s m).lap t1).2.started = s) ∧
    ((((w.start s m).lap t1).2.lap t2).2.started = s) :=
  ⟨rfl, rfl, rfl, rfl, rfl, rfl⟩

/-- C6, counterexample. The claim says requesting mean/standard deviation on
an accumulator with `count == 0` fails loudly with a division error and
never silently returns a sentinel. The source has no `mean()`/`stddev()`
operations; the only statistics-reporting operation, `__repr__`, takes the
single-value branch for `count == 0` and silently renders the sentinel sum
`0.0 s` without any failure and without touching the object. -/
theorem claim6_counterexample_zero_count_renders_sentinel :
    (((Statistics.init 6).reprRun id).2 = Except.ok "0.0 s") ∧
    (((Statistics.init 6).reprRun id).1 = Statistics.init 6) :=
  ⟨by with_unfolding_all decide, by rfl⟩

/-- C6, amended. On an accumulator with `count == 0`, rendering does not
fail: mean and standard deviation are never computed (they are only derived
when `count > 1`), and the single-value form `round(sum)` + " s" — the
sentinel `0.0 s` on a fresh accumulator — is returned with the object left
unchanged. -/
theorem claim6_amended_zero_count_render (sqrtFn : ℚ → ℚ) (s : Statistics)
    (h : s.count = 0) :
    s.reprRun sqrtFn = (s, Except.ok (fmtFloat (pyRound s.sum s.ndigits) ++ " s")) := by
  unfold Statistics.reprRun
  rw [h]
  norm_num

/-- C6, witness at a freshly constructed accumulator. -/
theorem claim6_witness :
    (Statistics.init 3).reprRun id =
      (Statistics.init 3,
        Except.ok (fmtFloat (pyRound (Statistics.init 3).sum (Statistics.init 3).ndigits) ++ " s")) :=
  claim6_amended_zero_count_render id (Statistics.init 3) rfl

/-- C7, counterexample. The claim says `render()` is exactly the label
followed by `": "` followed by the accumulator rendering. The source
(line 172) uses `f"{self.message} : "`: the separator is `" : "` with a
space before the colon, so with label `Stopwatch` and a single recorded
sample of `1` second the output is `"Stopwatch : 1.0 s"` and not the
claimed `"Stopwatch" + ": " + "1.0 s"`. -/
theorem claim7_counterexample_separator :
    ((oneStopWatch.reprRun id).2 = Except.ok "Stopwatch : 1.0 s") ∧
    (oneStopWatch.message = "Stopwatch") ∧
    ((oneStopWatch.stats.reprRun id).2 = Except.ok "1.0 s") ∧
    ("Stopwatch : 1.0 s" ≠ "Stopwatch" ++ ": " ++ "1.0 s") := by
  with_unfolding_all decide

/-- C7, amended. `render()` returns the label followed by `" : "` (space
before the colon) followed by the accumulator rendering: the single-value
form `round(total)` + " s" when at most one sample has been recorded, and
otherwise the multi-line block with total, minimum, maximum, mean, stddev
and count, each value rounded to the configured precision (for states whose
radicand is non-negative, which all recorded-sample states are). -/
theorem claim7_amended_render_format (sqrtFn : ℚ → ℚ) (w : Stopwatch) :
    (w.stats.count ≤ 1 →
      (w.reprRun sqrtFn).2 =
        Except.ok ((w.message ++ " : ") ++
          (fmtFloat (pyRound w.stats.sum w.stats.ndigits) ++ " s"))) ∧
    (1 < w.stats.count → 0 ≤ w.stats.radicand →
      (w.reprRun sqrtFn).2 =
        Except.ok ((w.message ++ " : ") ++
          ("\n    total  : " ++ fmtFloat (pyRound w.stats.sum w.stats.ndigits) ++ " s" ++
           "\n    minimum: " ++ fmtFloat (pyRound w.stats.min w.stats.ndigits) ++ " s" ++
           "\n    maximum: " ++ fmtFloat (pyRound w.stats.max w.stats.ndigits) ++ " s" ++
           "\n    mean   : " ++
             fmtFloat (pyRound (w.stats.sum / (w.stats.count : ℚ)) w.stats.ndigits) ++ " s" ++
           "\n    stddev : " ++
             fmtFloat (pyRound (sqrtFn w.stats.radicand) w.stats.ndigits) ++ " s" ++
           "\n    count  : " ++ Nat.repr w.stats.count))) := by
  constructor
  · intro h
    unfold Stopwatch.reprRun Statistics.reprRun
    dsimp only
    rw [if_neg (not_lt.mpr h)]
  · intro h hrad
    unfold Stopwatch.reprRun Statistics.reprRun
    dsimp only
    rw [if_pos h, if_neg (not_lt.mpr hrad)]

/-- C7, witness for the multi-line branch at a concrete two-sample watch. -/
theorem claim7_witness :
    (twoStopWatch.reprRun id).2 =
      Except.ok ((twoStopWatch.message ++ " : ") ++
        ("\n    total  : " ++ fmtFloat (pyRound twoStopWatch.stats.sum twoStopWatch.stats.ndigits) ++ " s" ++
         "\n    minimum: " ++ fmtFloat (pyRound twoStopWatch.stats.min twoStopWatch.stats.ndigits) ++ " s" ++
         "\n    maximum: " ++ fmtFloat (pyRound twoStopWatch.stats.max twoStopWatch.stats.ndigits) ++ " s" ++
         "\n    mean   : " ++
           fmtFloat (pyRound (twoStopWatch.stats.sum / (twoStopWatch.stats.count : ℚ)) twoStopWatch.stats.ndigits) ++ " s" ++
         "\n    stddev : " ++
           fmtFloat (pyRound (id twoStopWatch.stats.radicand) twoStopWatch.stats.ndigits) ++ " s" ++
         "\n    count  : " ++ Nat.repr twoStopWatch.stats.count)) :=
  (claim7_amended_render_format id twoStopWatch).2 (by with_unfolding_all decide)
    (by with_unfolding_all decide)

/-- C8 (confirmed). Every `start()` sets `startedAt` and `stoppedAt` to the
same timer reading; every `stop()` re-invokes `start()` before returning so
the resulting state has `startedAt = stoppedAt` at the restart reading; and
every state reachable from construction by `start()`/`stop()` sequences
satisfies `startedAt = stoppedAt`, hence `startedAt <= stoppedAt`. -/
theorem claim8_timestamp_invariant (w0 : Stopwatch) :
    (∀ (w : Stopwatch) (now : ℚ) (m : Option String),
      (w.start now m).started = now ∧ (w.start now m).stopped = now) ∧
    (∀ (w : Stopwatch) (flag : Bool) (t1 t2 : ℚ),
      ((w.stop flag t1 t2).2).started = t2 ∧ ((w.stop flag t1 t2).2).stopped = t2) ∧
    (Reach w0 → w0.started = w0.stopped ∧ w0.started ≤ w0.stopped) := by
  refine ⟨fun w now m => ⟨rfl, rfl⟩, fun w flag t1 t2 => ⟨rfl, rfl⟩, fun h => ?_⟩
  have heq : w0.started = w0.stopped := by
    induction h with
    | init msg nd fa now => rfl
    | next_start w now m hw hle ih => rfl
    | next_stop w flag t1 t2 hw h1 h2 ih => rfl
  exact ⟨heq, le_of_eq heq⟩

/-- C8, witness at a freshly constructed stopwatch. -/
theorem claim8_witness :
    freshWatch.started = freshWatch.stopped ∧ freshWatch.started ≤ freshWatch.stopped :=
  (claim8_timestamp_invariant freshWatch).2.2 (Reach.init "Stopwatch" 6 FileArg.stdout 0)

/-- C9, counterexample. The claim says `n` invocations of a decorated
callable with no inner `stop()` yield `count == n`. Because `__exit__` only
calls `stop()` when the count is still zero, the second and later calls
record nothing: two invocations leave `count = 1`, not `2`. -/
theorem claim9_counterexample_two_calls_leave_count_one :
    ((iterateCalls id unitFunc ()
        ([(0, 1, 1), (1, 2, 2)] : List (ℚ × ℚ × ℚ)) ctx0).watch.stats.count = 1) ∧
    (([(0, 1, 1), (1, 2, 2)] : List (ℚ × ℚ × ℚ)).length = 2) ∧
    ((1 : ℕ) ≠ 2) := by
  with_unfolding_all decide

/-- C9, amended. Each invocation of the decorated callable is literally the
original callable's body run inside the scoped-acquisition adapter on the
same stopwatch (so the first three conjuncts of the claim hold: scoped
equivalence, unchanged return value, preserved `__name__` metadata), but
the accumulator count does NOT grow across repeated calls: starting from a
fresh stopwatch, any positive number of invocations with no inner `stop()`
leaves `count = 1`, because the scope-exit guard records only when no
sample exists yet. -/
theorem claim9_amended_decorator_equivalence (α β : Type) (sqrtFn : ℚ → ℚ)
    (f : PyFunc α β) (x : α) (t0 t1 t2 : ℚ) (c0 : CallCtx)
    (ts : List (ℚ × ℚ × ℚ)) (hts : ts ≠ []) (hc : c0.watch.stats.count = 0) :
    ((Stopwatch.decorate sqrtFn f).call (t0, t1, t2) c0 x =
      scopedRun sqrtFn t0 t1 t2 (fun _ => f.call x) c0) ∧
    (((Stopwatch.decorate sqrtFn f).call (t0, t1, t2) c0 x).1 = f.call x) ∧
    ((Stopwatch.decorate sqrtFn f).funcName = f.funcName) ∧
    ((iterateCalls sqrtFn f x ts c0).watch.stats.count = 1) :=
  ⟨rfl, rfl, rfl, iterate_count_one sqrtFn f x ts c0 hts hc⟩

/-- C9, witness for the amended theorem at one concrete decorated call. -/
theorem claim9_witness :
    (iterateCalls id unitFunc () ([(0, 1, 1)] : List (ℚ × ℚ × ℚ)) ctx0).watch.stats.count = 1 :=
  (claim9_amended_decorator_equivalence Unit Unit id unitFunc () 0 1 1 ctx0
    ([(0, 1, 1)] : List (ℚ × ℚ × ℚ)) (List.cons_ne_nil _ _) rfl).2.2.2

/-- C10 (confirmed). Rendering an accumulator mutates it exactly when
`count > 1`: the dynamic attributes `mean` and `stddev` are bound — or
overwritten, when a previous render already bound them — while `count`,
`sum`, `ssq`, `min`, `max` and `ndigits` are untouched (the result is a
field update of the original record); with `count <= 1` the accumulator is
returned entirely unchanged. Stated for every state with a non-negative
radicand, which `radicand_nonneg` shows covers every accumulator the
program can build (a negative radicand would make the render raise out of
`math.sqrt` with only `mean` bound). -/
theorem claim10_render_mutation_frame (sqrtFn : ℚ → ℚ) (s : Statistics)
    (hrad : 0 ≤ s.radicand) :
    (1 < s.count →
      (s.reprRun sqrtFn).1 =
        { s with meanAttr := some (s.sum / (s.count : ℚ)),
                 stddevAttr := some (sqrtFn s.radicand) }) ∧
    (s.count ≤ 1 → (s.reprRun sqrtFn).1 = s) := by
  constructor
  · intro h
    unfold Statistics.reprRun
    dsimp only
    rw [if_pos h, if_neg (not_lt.mpr hrad)]
  · intro h
    unfold Statistics.reprRun
    dsimp only
    rw [if_neg (not_lt.mpr h)]

/-- C10, witness at a concrete two-sample accumulator that has already been
rendered once, so this second render overwrites the previously bound
`mean`/`stddev` attributes. -/
theorem claim10_witness :
    ((twoSampleStats.reprRun id).1.reprRun id).1 =
      { (twoSampleStats.reprRun id).1 with
          meanAttr := some ((twoSampleStats.reprRun id).1.sum /
            ((twoSampleStats.reprRun id).1.count : ℚ)),
          stddevAttr := some (id (twoSampleStats.reprRun id).1.radicand) } :=
  (claim10_render_mutation_frame id (twoSampleStats.reprRun id).1
    (by with_unfolding_all decide)).1 (by with_unfolding_all decide)

end EtStopwatch
